import Mathlib

/-!
Verification of the financedatafetcher repository against its
natural-language specification.

Each Python module relevant to the checked claims is shallowly embedded:
pure functions become Lean functions, stateful methods become explicit
state-passing functions, machine floats on the heuristic-score paths are
modelled as exact rationals (all constants involved are decimal), and
fallible code returns `Except`/`Option`.
-/

namespace DataFetch

/-! ### String primitives

All Python string operations are modelled structurally over `List Char`
(`String.data`), so that every definition evaluates inside the kernel. -/

/-- A Python `str`, as its character list. -/
abbrev PyStr := List Char

/-- List-level `startsWith`. -/
def listStartsWith : PyStr → PyStr → Bool
  | _, [] => true
  | [], _ :: _ => false
  | c :: cs, p :: ps => c == p && listStartsWith cs ps

/-- List-level `endsWith`. -/
def listEndsWith (s pat : PyStr) : Bool :=
  listStartsWith s.reverse pat.reverse

/-- Find the first occurrence of `pat` in `s`; return the suffix after it. -/
def listFindDrop (pat : PyStr) : PyStr → Option PyStr
  | [] => if pat.isEmpty then some [] else none
  | c :: tl =>
      if listStartsWith (c :: tl) pat then some ((c :: tl).drop pat.length)
      else listFindDrop pat tl

/-- Python's substring test `pat in s`. -/
def charsContains (s pat : PyStr) : Bool :=
  (listFindDrop pat s).isSome

/-- Python's substring test `pat in s` on `String`s. -/
def strContains (s pat : String) : Bool :=
  charsContains s.data pat.data

/-- Fuel-driven worker for `splitChars` (fuel keeps the recursion
structural; it is initialized above the input length, so the fuel-0 case
is never reached). -/
def splitCharsGo (sep : PyStr) : Nat → PyStr → PyStr → List PyStr
  | 0, s, acc => [acc.reverse ++ s]
  | Nat.succ _, [], acc => [acc.reverse]
  | Nat.succ n, c :: tl, acc =>
      if !sep.isEmpty && listStartsWith (c :: tl) sep then
        acc.reverse :: splitCharsGo sep n ((c :: tl).drop sep.length) []
      else splitCharsGo sep n tl (c :: acc)

/-- Python's `s.split(sep)` for a non-empty separator. -/
def splitChars (s sep : PyStr) : List PyStr :=
  splitCharsGo sep (s.length + 1) s []

/-- `String.intercalate` on character lists. -/
def intercalateChars (sep : PyStr) : List PyStr → PyStr
  | [] => []
  | [x] => x
  | x :: y :: rest => x ++ sep ++ intercalateChars sep (y :: rest)

/-- Python's whitespace test used by `str.strip()`. -/
def isSpaceChar (c : Char) : Bool :=
  c == ' ' || c == '\t' || c == '\n' || c == '\r' || c == '\x0b' || c == '\x0c'

/-- Python's `s.strip()`. -/
def trimChars (s : PyStr) : PyStr :=
  ((s.dropWhile isSpaceChar).reverse.dropWhile isSpaceChar).reverse

/-- ASCII lower-casing of one character (Python `str.lower` on the ASCII
directives that appear in robots files and URLs). -/
def charLower (c : Char) : Char :=
  if 'A' ≤ c && c ≤ 'Z' then Char.ofNat (c.toNat + 32) else c

/-- Python's `s.lower()`. -/
def lowerChars (s : PyStr) : PyStr :=
  s.map charLower

/-! ## Warehouse (src/warehouse/data_warehouse.py)

`DataWarehouse` keeps an in-memory pandas DataFrame `self._data`; we model
the frame as a list of stored rows (one row per normalized point, with the
`metadata` dict stringified exactly as `add_data_point` does before
insertion).  Methods that read or write `self._data` become functions on
this list; methods that also return a frame return it alongside the
(unchanged or updated) state. -/

/-- `NormalizedDataPoint` from src/normalizer/data_normalizer.py:
timestamps are modelled as integers (epoch ordinals), float values as
rationals, the metadata dict as an association list. -/
structure NormalizedDataPoint where
  id : String
  source : String
  asset : String
  metric : String
  timestamp : Int
  date : Int
  value : Rat
  value_usd : Option Rat
  value_btc : Option Rat
  unit : String
  confidence : Int
  data_type : String
  category : String
  raw_source_field : String
  metadata : List (String × String)
deriving Repr, DecidableEq

/-- One row of the warehouse DataFrame: the point's `to_dict()` image with
`metadata` converted to a string (data_warehouse.py line 73). -/
structure StoredRow where
  id : String
  source : String
  asset : String
  metric : String
  timestamp : Int
  date : Int
  value : Rat
  value_usd : Option Rat
  value_btc : Option Rat
  unit : String
  confidence : Int
  data_type : String
  category : String
  raw_source_field : String
  metadata : String
deriving Repr, DecidableEq

/-- Python's `str(metadata_dict)` rendering, modelled as a deterministic
serialization of the association list. -/
def strOfMetadata (m : List (String × String)) : String :=
  String.intercalate ", " (m.map (fun kv => kv.1 ++ ": " ++ kv.2))

/-- The row appended by `add_data_point`: `point.to_dict()` with the
metadata stringified. -/
def pointToRow (p : NormalizedDataPoint) : StoredRow :=
  { id := p.id, source := p.source, asset := p.asset, metric := p.metric,
    timestamp := p.timestamp, date := p.date, value := p.value,
    value_usd := p.value_usd, value_btc := p.value_btc, unit := p.unit,
    confidence := p.confidence, data_type := p.data_type,
    category := p.category, raw_source_field := p.raw_source_field,
    metadata := strOfMetadata p.metadata }

/-- The warehouse state: the rows of `self._data` (initialized empty by
`_initialize_empty`). -/
abbrev Warehouse := List StoredRow

/-- The `id` column of the warehouse frame (`self._data['id'].values`). -/
def warehouseIds (w : Warehouse) : List String :=
  w.map (fun r => r.id)

/-- `DataWarehouse.add_data_point`: on an empty frame the new row becomes
the frame; otherwise the row is appended only when its `id` is not already
present (duplicates are skipped). -/
def add_data_point (w : Warehouse) (p : NormalizedDataPoint) : Warehouse :=
  if w.isEmpty then [pointToRow p]
  else if (warehouseIds w).contains p.id then w
  else w ++ [pointToRow p]

/-- `DataWarehouse.add_data_points`: insert each point in order. -/
def add_data_points (w : Warehouse) (ps : List NormalizedDataPoint) : Warehouse :=
  ps.foldl add_data_point w

/-- Distinctness of two rows' ids (the warehouse uniqueness invariant). -/
def distinctIds (a b : StoredRow) : Prop := a.id ≠ b.id

/-- Timestamp-descending comparison used by `query`'s
`sort_values('timestamp', ascending=False)`. -/
def tsDesc (a b : StoredRow) : Bool := b.timestamp ≤ a.timestamp

/-- `DataWarehouse.query`: works on a copy of `self._data`, filters by
asset / metrics / date range / sources (each filter skipped when its
argument is falsy, as in Python), sorts by timestamp descending, and
returns the filtered frame together with the unchanged state. -/
def query (w : Warehouse) (asset : Option String) (metrics : Option (List String))
    (dateRange : Option (Int × Int)) (sources : Option (List String)) :
    List StoredRow × Warehouse :=
  if w.isEmpty then ([], w)
  else
    let r := w
    let r := match asset with
      | some a => if a = "" then r else r.filter (fun x => x.asset == a)
      | none => r
    let r := match metrics with
      | some ms => if ms.isEmpty then r else r.filter (fun x => ms.contains x.metric)
      | none => r
    let r := match dateRange with
      | some (s, e) =>
          r.filter (fun (x : StoredRow) => decide (s ≤ x.date) && decide (x.date ≤ e))
      | none => r
    let r := match sources with
      | some ss => if ss.isEmpty then r else r.filter (fun x => ss.contains x.source)
      | none => r
    (r.mergeSort tsDesc, w)

/-- `DataWarehouse.get_dataframe`: returns a copy of the full frame;
the stored state is passed through unchanged. -/
def get_dataframe (w : Warehouse) : List StoredRow × Warehouse :=
  (w, w)

/-- Membership form of `List.contains` on the id column. -/
theorem contains_iff_mem_ids (w : Warehouse) (s : String) :
    (warehouseIds w).contains s = true ↔ s ∈ warehouseIds w := by
  simp

/-- Inserting a point leaves an id-distinct warehouse id-distinct. -/
theorem add_data_point_pairwise (w : Warehouse) (p : NormalizedDataPoint)
    (h : w.Pairwise distinctIds) : (add_data_point w p).Pairwise distinctIds := by
  unfold add_data_point
  split
  · simp
  · split
    · exact h
    · next hw hc =>
      rw [List.pairwise_append]
      refine ⟨h, List.pairwise_singleton _ _, ?_⟩
      intro a ha b hb
      simp only [List.mem_singleton] at hb
      subst hb
      intro hab
      apply hc
      rw [contains_iff_mem_ids]
      have : a.id = p.id := hab
      rw [← this]
      exact List.mem_map_of_mem (fun r => r.id) ha

/-- Inserting any sequence of points leaves an id-distinct warehouse
id-distinct. -/
theorem add_data_points_pairwise (w : Warehouse) (ps : List NormalizedDataPoint)
    (h : w.Pairwise distinctIds) : (add_data_points w ps).Pairwise distinctIds := by
  induction ps generalizing w with
  | nil => exact h
  | cons p ps ih =>
      exact ih _ (add_data_point_pairwise w p h)

/-- Claim C3: starting from the empty warehouse, any sequence of
`add_data_point` calls yields pairwise-distinct stored ids; inserting a
point whose id is already stored leaves the warehouse unchanged; and
inserting two points with identical ids stores exactly the first. -/
theorem warehouse_dedup_first_insert_wins
    (ps : List NormalizedDataPoint) (w : Warehouse)
    (p₁ p₂ : NormalizedDataPoint) (hdup : p₂.id = p₁.id) :
    (add_data_points [] ps).Pairwise distinctIds ∧
    (p₁.id ∈ warehouseIds w → add_data_point w p₁ = w) ∧
    add_data_point (add_data_point [] p₁) p₂ = [pointToRow p₁] := by
  refine ⟨add_data_points_pairwise [] ps List.Pairwise.nil, ?_, ?_⟩
  · intro hmem
    have hw : ¬ w.isEmpty := by
      intro he
      rw [List.isEmpty_iff] at he
      subst he
      simp [warehouseIds] at hmem
    have hc : (warehouseIds w).contains p₁.id = true :=
      (contains_iff_mem_ids w p₁.id).mpr hmem
    simp [add_data_point, hw, hc, hmem]
  · have h1 : add_data_point [] p₁ = [pointToRow p₁] := by
      simp [add_data_point]
    rw [h1]
    simp [add_data_point, warehouseIds, pointToRow, hdup]

/-- Witness for C3 at concrete points. -/
theorem warehouse_dedup_first_insert_wins_witness :
    let p : NormalizedDataPoint :=
      { id := "coinglass_BTC_spot_volume_24h_1", source := "coinglass",
        asset := "BTC", metric := "spot_volume_24h", timestamp := 1,
        date := 1, value := 100, value_usd := some 100, value_btc := none,
        unit := "USD", confidence := 90, data_type := "aggregate",
        category := "volume", raw_source_field := "volume", metadata := [] }
    let q : NormalizedDataPoint := { p with value := 200 }
    add_data_point (add_data_point [] p) q = [pointToRow p] := by
  intro p q
  exact (warehouse_dedup_first_insert_wins [] [] p q rfl).2.2

/-- Claim C10: the read operations `query` and `get_dataframe` return
their results alongside an unchanged warehouse state: the stored rows
after any read equal those before it. -/
theorem warehouse_reads_do_not_mutate
    (w : Warehouse) (asset : Option String) (metrics : Option (List String))
    (dateRange : Option (Int × Int)) (sources : Option (List String)) :
    (query w asset metrics dateRange sources).2 = w ∧
    (get_dataframe w).2 = w := by
  constructor
  · unfold query
    by_cases hw : w.isEmpty <;> simp [hw]
  · rfl

/-! ## Robots compliance (src/utils/robots.py)

`RobotsParser` parses a robots.txt body into per-agent allow/disallow rule
lists; `is_allowed` checks a path (Allow first, so Allow wins over
Disallow); `check_robots_permission` wraps the fetch + parse into an
ALLOWED/DISALLOWED/UNKNOWN decision, with a bypass for API-looking URLs.
The network fetch is an explicit parameter (its three outcomes mirror
`fetch_robots_txt`). -/

/-- Python's `line.split(":", 1)`, assuming a colon is present. -/
def splitColonOnce (line : PyStr) : PyStr × PyStr :=
  match splitChars line [':'] with
  | [] => (line, [])
  | d :: rest => (d, intercalateChars [':'] rest)

/-- Match the remaining glob segments in order within `s`; when `anchored`,
the final segment must sit at the very end (the `$` case of
`_path_matches`).  Matching each segment at its earliest occurrence is
complete for these escaped-glob regexes. -/
def matchSegsMid (anchored : Bool) : PyStr → List PyStr → Bool
  | s, [] => if anchored then s.isEmpty else true
  | s, [seg] =>
      if anchored then listEndsWith s seg
      else (listFindDrop seg s).isSome
  | s, seg :: rest =>
      match listFindDrop seg s with
      | some s' => matchSegsMid anchored s' rest
      | none => false

/-- `re.match` of the glob-to-regex translation: first segment anchored at
the start, the rest in order, optional end anchor. -/
def globMatch (anchored : Bool) (s : PyStr) (segs : List PyStr) : Bool :=
  match segs with
  | [] => true
  | seg0 :: rest =>
      listStartsWith s seg0 && matchSegsMid anchored (s.drop seg0.length) rest

/-- `RobotsParser._path_matches`: empty patterns never match; patterns with
`*` go through glob-to-regex matching (with a trailing `$` as end anchor);
plain patterns are prefix matches. -/
def path_matches (path pattern : PyStr) : Bool :=
  if pattern.isEmpty then false
  else if charsContains pattern ['*'] then
    let anchored := listEndsWith pattern ['$']
    let core := if anchored then pattern.dropLast else pattern
    globMatch anchored path (splitChars core ['*'])
  else listStartsWith path pattern

/-- Allow/disallow pattern lists for one user-agent block. -/
structure AgentRules where
  allow : List PyStr
  disallow : List PyStr
deriving Repr, DecidableEq

/-- The parser's `rules` dict: insertion-ordered association list. -/
abbrev RulesMap := List (PyStr × AgentRules)

/-- Dict lookup `rules.get(k)`. -/
def rulesGet (m : RulesMap) (k : PyStr) : Option AgentRules :=
  (m.find? (fun kv => kv.1 == k)).map (fun kv => kv.2)

/-- `if value not in rules: rules[value] = {...}`. -/
def rulesInsertIfAbsent (m : RulesMap) (k : PyStr) : RulesMap :=
  if (rulesGet m k).isSome then m else m ++ [(k, ⟨[], []⟩)]

/-- Append a pattern to the disallow list of agent `k`. -/
def rulesAppendDisallow (m : RulesMap) (k v : PyStr) : RulesMap :=
  m.map (fun kv =>
    if kv.1 == k then (kv.1, AgentRules.mk kv.2.allow (kv.2.disallow ++ [v])) else kv)

/-- Append a pattern to the allow list of agent `k`. -/
def rulesAppendAllow (m : RulesMap) (k v : PyStr) : RulesMap :=
  m.map (fun kv =>
    if kv.1 == k then (kv.1, AgentRules.mk (kv.2.allow ++ [v]) kv.2.disallow) else kv)

/-- One iteration of `RobotsParser._parse`'s line loop over the state
(rules dict, current agent list). -/
def parseRobotsLine (st : RulesMap × List PyStr) (rawLine : PyStr) :
    RulesMap × List PyStr :=
  let line := trimChars rawLine
  if line.isEmpty || listStartsWith line ['#'] then st
  else if !(charsContains line [':']) then st
  else
    let dv := splitColonOnce line
    let directive := lowerChars (trimChars dv.1)
    let value := trimChars dv.2
    if directive = "user-agent".data then
      (rulesInsertIfAbsent st.1 value, [value])
    else if directive = "disallow".data then
      (st.2.foldl (fun m agent =>
        if (rulesGet m agent).isSome then rulesAppendDisallow m agent value else m) st.1,
       st.2)
    else if directive = "allow".data then
      (st.2.foldl (fun m agent =>
        if (rulesGet m agent).isSome then rulesAppendAllow m agent value else m) st.1,
       st.2)
    else st

/-- `RobotsParser._parse`: fold the line loop from the initial state
(`{"*": empty rules}`, current agents `["*"]`). -/
def robotsParse (robots_txt : String) : RulesMap :=
  ((splitChars robots_txt.data ['\n']).foldl parseRobotsLine
    ([(['*'], ⟨[], []⟩)], [['*']])).1

/-- `RobotsParser.is_allowed`: allow rules are checked first (they take
precedence), then disallow rules; default is allowed. -/
def is_allowed (rules : RulesMap) (user_agent path : PyStr) : Bool :=
  let agentRules :=
    match rulesGet rules user_agent with
    | some r => r
    | none =>
        match rulesGet rules ['*'] with
        | some r => r
        | none => ⟨[], []⟩
  if agentRules.allow.any (fun ap => path_matches path ap) then true
  else if agentRules.disallow.any (fun dp => path_matches path dp) then false
  else true

/-- Outcome of `fetch_robots_txt`: HTTP 200 body, 404 (treated as empty
policy), or a fetch failure message. -/
inductive FetchRobots where
  | ok (text : String)
  | notFound
  | fetchError (msg : String)
deriving Repr, DecidableEq

/-- `RobotsStatus`. -/
inductive RStatus where
  | ALLOWED
  | DISALLOWED
  | UNKNOWN
deriving Repr, DecidableEq

/-- `RobotsDecision` (status and reason; the url fields are omitted). -/
structure RobotsDecision where
  status : RStatus
  reason : String
deriving Repr, DecidableEq

/-- `check_robots_permission`, with the URL already parsed into host and
path and the robots fetch supplied as an explicit outcome: API-looking
URLs bypass the check and return ALLOWED; fetch failures give UNKNOWN;
404/empty bodies give ALLOWED; otherwise the parsed rules decide. -/
def check_robots_permission (netloc rawPath : String) (user_agent : String)
    (fetched : FetchRobots) : RobotsDecision :=
  let path : PyStr := if rawPath.data.isEmpty then ['/'] else rawPath.data
  if charsContains path "/api/".data || listStartsWith path "/api".data ||
      strContains netloc "api." then
    { status := .ALLOWED,
      reason := "API endpoint - robots.txt check skipped (APIs have their own access controls)" }
  else
    match fetched with
    | .fetchError e =>
        { status := .UNKNOWN, reason := "Could not fetch robots.txt: " ++ e }
    | .notFound =>
        { status := .ALLOWED, reason := "No robots.txt found - allowed by default" }
    | .ok txt =>
        if txt = "" then
          { status := .ALLOWED, reason := "No robots.txt found - allowed by default" }
        else if is_allowed (robotsParse txt) user_agent.data path then
          { status := .ALLOWED, reason := "Path is allowed in robots.txt" }
        else
          { status := .DISALLOWED, reason := "Path is disallowed in robots.txt" }

/-- The robots.txt body of the precedence example. -/
def robotsApiExample : String :=
  "User-agent: *\nDisallow: /api/\nAllow: /api/public/"

/-- Claim C4 counterexample: as stated over the compliance check
(`check_robots_permission`), the claim fails: the path `/api/private`
contains `/api`, so the check bypasses robots.txt entirely and returns
ALLOWED, not DISALLOWED. -/
theorem compliance_check_api_bypass_counterexample :
    (check_robots_permission "example.com" "/api/private" "DataFetchBot/1.0"
      (.ok robotsApiExample)).status = RStatus.ALLOWED ∧
    RStatus.ALLOWED ≠ RStatus.DISALLOWED := by
  constructor
  · decide
  · decide

/-- Claim C4 (amended): at the parser level, `is_allowed` on the rules of
`Disallow: /api/` + `Allow: /api/public/` rejects `/api/private` and
accepts `/api/public/x` (Allow takes precedence); the full compliance
check, however, bypasses robots.txt for any path starting with `/api`
and returns ALLOWED for both paths. -/
theorem robots_precedence_parser_level :
    is_allowed (robotsParse robotsApiExample) "DataFetchBot/1.0".data "/api/private".data
      = false ∧
    is_allowed (robotsParse robotsApiExample) "DataFetchBot/1.0".data "/api/public/x".data
      = true ∧
    (check_robots_permission "example.com" "/api/private" "DataFetchBot/1.0"
      (.ok robotsApiExample)).status = RStatus.ALLOWED ∧
    (check_robots_permission "example.com" "/api/public/x" "DataFetchBot/1.0"
      (.ok robotsApiExample)).status = RStatus.ALLOWED := by
  exact ⟨by decide, by decide, by decide, by decide⟩

/-! ## Scraper lifecycle (src/scraper/base_scraper.py)

`BaseScraper` is an abstract class: `fetch_raw` and `parse_raw` are
implemented by subclasses, so the embedding takes them as function
parameters (the same dependency-injection shape as the source).  A Python
exception is modelled by its type name and message, since
`_classify_error` inspects exactly those.  Fields of `ScraperResult` that
no claim touches (run id, date range, raw-response path, metadata) are
omitted. -/

/-- A raised Python exception: type name and `str(error)` message. -/
structure PyError where
  ty : String
  msg : String
deriving Repr, DecidableEq

/-- `BaseScraper._classify_error`: classify an exception into
`network | auth | rate_limit | bot_detection | parsing | unknown` from
substrings of its type name and lower-cased message. -/
def _classify_error (e : PyError) : String :=
  let error_str := lowerChars e.msg.data
  let error_type := e.ty.data
  if ["Connection", "Timeout", "HTTPError"].any
      (fun x => charsContains error_type x.data) then
    if charsContains error_str "429".data ||
        charsContains error_str "rate limit".data then "rate_limit"
    else if charsContains error_str "403".data ||
        charsContains error_str "forbidden".data then "bot_detection"
    else if charsContains error_str "401".data ||
        charsContains error_str "unauthorized".data then "auth"
    else "network"
  else if charsContains error_str "401".data ||
      charsContains error_str "unauthorized".data ||
      charsContains error_str "authentication".data then "auth"
  else if charsContains error_str "429".data ||
      charsContains error_str "rate limit".data ||
      charsContains error_str "too many requests".data then "rate_limit"
  else if ["cloudflare", "captcha", "blocked", "403", "forbidden"].any
      (fun x => charsContains error_str x.data) then "bot_detection"
  else if ["JSONDecode", "ValueError", "KeyError", "AttributeError"].any
      (fun x => charsContains error_type x.data) then "parsing"
  else "unknown"

/-- `BaseScraper._get_retry_delay`: the class-specific backoff formula;
the uniform random jitter is an explicit input (its range depends on the
class in the source, but only the deterministic part matters here). -/
def _get_retry_delay (retry_delay : Rat) (error_type : String) (attempt : Nat)
    (jitter : Rat) : Rat :=
  if error_type = "rate_limit" then retry_delay * 3 ^ attempt + jitter
  else if error_type = "bot_detection" then retry_delay * 4 ^ attempt + jitter
  else if error_type = "auth" then retry_delay * 2 ^ attempt + jitter
  else if error_type = "network" then retry_delay * 2 ^ attempt + jitter
  else retry_delay * 2 ^ attempt + jitter

/-- Worker for `_retry_operation`: try the operation on each remaining
attempt, remembering the last error; when attempts run out, re-raise the
last error (`none` models Python's degenerate `raise None` when
`max_retries` is 0).  The second component counts invocations of the
operation. -/
def retryOperationGo {α : Type} (op : Nat → Except PyError α) :
    Nat → Nat → Option PyError → Except (Option PyError) α × Nat
  | _, 0, last => (.error last, 0)
  | attempt, Nat.succ rem, _ =>
      match op attempt with
      | .ok v => (.ok v, 1)
      | .error e =>
          let r := retryOperationGo op (attempt + 1) rem (some e)
          (r.1, r.2 + 1)

/-- `BaseScraper._retry_operation`: run the attempt loop from attempt 0.
Every exception, whatever `_classify_error` says, goes through the same
retry path (classification only picks the sleep delay and side-effect
logging). -/
def _retry_operation {α : Type} (max_retries : Nat)
    (op : Nat → Except PyError α) : Except (Option PyError) α × Nat :=
  retryOperationGo op 0 max_retries none

/-- Claim C1 counterexample: a `ValueError` is classified `parsing`, yet
the retry wrapper with `max_retries = 3` invokes the failing operation 3
times, not once — parsing-classified errors are retried like every other
class. -/
theorem parsing_errors_are_retried_counterexample :
    _classify_error { ty := "ValueError", msg := "invalid literal for int" }
      = "parsing" ∧
    (_retry_operation 3 (fun _ =>
      (Except.error { ty := "ValueError", msg := "invalid literal for int" }
        : Except PyError Unit))).2 = 3 ∧
    (3 : Nat) ≠ 1 := by
  refine ⟨by decide, by decide, by decide⟩

/-- An always-failing operation is attempted exactly `rem` times and the
final attempt's error is re-raised. -/
theorem retryGo_all_fail {α : Type} (e : Nat → PyError) (attempt rem : Nat)
    (hrem : 0 < rem) (last : Option PyError) :
    retryOperationGo (fun a => (Except.error (e a) : Except PyError α))
        attempt rem last
      = (Except.error (some (e (attempt + rem - 1))), rem) := by
  induction rem generalizing attempt last with
  | zero => omega
  | succ n ih =>
      cases n with
      | zero => simp [retryOperationGo]
      | succ m =>
          have h := ih (attempt + 1) (Nat.succ_pos m) (some (e attempt))
          have step : retryOperationGo (fun a => (Except.error (e a) : Except PyError α))
              attempt (m + 1 + 1) last
            = ((retryOperationGo (fun a => (Except.error (e a) : Except PyError α))
                  (attempt + 1) (m + 1) (some (e attempt))).1,
               (retryOperationGo (fun a => (Except.error (e a) : Except PyError α))
                  (attempt + 1) (m + 1) (some (e attempt))).2 + 1) := rfl
          have harg : attempt + 1 + (m + 1) - 1 = attempt + (m + 1 + 1) - 1 := by omega
          rw [step, h, harg]

/-- Claim C1 (amended): the retry wrapper retries exceptions of every
class — parsing and unknown included, classification affecting only the
backoff delay: an operation that always raises is attempted exactly
`max_retries` times and the last exception is then re-raised. -/
theorem retry_wrapper_retries_every_class {α : Type} (e : Nat → PyError)
    (max_retries : Nat) (h : 0 < max_retries) :
    (_retry_operation max_retries
        (fun a => (Except.error (e a) : Except PyError α))).2 = max_retries ∧
    (_retry_operation max_retries
        (fun a => (Except.error (e a) : Except PyError α))).1
      = Except.error (some (e (max_retries - 1))) := by
  unfold _retry_operation
  rw [retryGo_all_fail e 0 max_retries h none]
  simp

/-- Witness for the amended C1 at a concrete parsing-classified error. -/
theorem retry_wrapper_retries_every_class_witness :
    (0 : Nat) < 3 ∧
    (_retry_operation 3 (fun _ =>
      (Except.error { ty := "KeyError", msg := "missing key" }
        : Except PyError Unit))).2 = 3 := by
  refine ⟨by decide, ?_⟩
  exact (retry_wrapper_retries_every_class
    (fun _ => { ty := "KeyError", msg := "missing key" }) 3 (by decide)).1

/-- One DataFrame cell: NaN, a number, or a string (the cell types the
parsers emit). -/
inductive Cell where
  | na
  | num (q : Rat)
  | str (s : String)
deriving Repr, DecidableEq

/-- A pandas DataFrame, as its column names and rows of cells. -/
structure DataFrame where
  columns : List String
  rows : List (List Cell)
deriving Repr, DecidableEq

/-- `df.empty`. -/
def DataFrame.isEmptyDf (df : DataFrame) : Bool :=
  df.rows.isEmpty

/-- `df.duplicated()`: a row is marked iff an equal row occurs before it. -/
def duplicatedMarks (rows : List (List Cell)) : List Bool :=
  (List.range rows.length).map (fun i =>
    (List.range i).any (fun j => rows.getD j [] == rows.getD i []))

/-- Number of duplicated rows (`df.duplicated().sum()`). -/
def dupCount (rows : List (List Cell)) : Nat :=
  (duplicatedMarks rows).count true

/-- Cell at column index `i` of a row (missing cells read as NaN). -/
def cellAt (row : List Cell) (i : Nat) : Cell :=
  row.getD i Cell.na

/-- NaN count of column `i` (`df.isna().sum()` for that column). -/
def nanCount (rows : List (List Cell)) (i : Nat) : Nat :=
  (rows.filter (fun r => cellAt r i == Cell.na)).length

/-- `BaseScraper.validate`: warning list for a parsed frame — empty-frame
warning, missing date/time column, duplicate rows, per-column NaN
counts. -/
def validate (df : Option DataFrame) : List String :=
  match df with
  | none => ["DataFrame is empty or None"]
  | some df =>
      if df.isEmptyDf then ["DataFrame is empty or None"]
      else
        let dateCols := df.columns.filter (fun c =>
          charsContains (lowerChars c.data) "date".data ||
          charsContains (lowerChars c.data) "time".data)
        let w1 := if dateCols.isEmpty then ["No date/time column found"] else []
        let d := dupCount df.rows
        let w2 := if d > 0 then ["Found " ++ toString d ++ " duplicate rows"] else []
        let w3 := (List.range df.columns.length).filterMap (fun i =>
          let n := nanCount df.rows i
          if n > 0 then
            some ("Column '" ++ df.columns.getD i "" ++ "' has " ++ toString n
              ++ " NaN values")
          else none)
        w1 ++ w2 ++ w3

/-- `ScraperResult` (success flag, frame, identifiers, row count,
validation warnings, at most one error, robots decision). -/
structure ScraperResult where
  success : Bool
  data : Option DataFrame
  source : String
  url : String
  rows_extracted : Nat
  validation_warnings : List String
  error : Option String
  robots_decision : Option RobotsDecision
deriving Repr, DecidableEq

/-- `BaseScraper.check_compliance`: raise `PermissionError` when the
decision is DISALLOWED, else return it. -/
def check_compliance (decision : RobotsDecision) : Except String RobotsDecision :=
  if decision.status = .DISALLOWED then
    Except.error ("Robots.txt disallows scraping: " ++ decision.reason)
  else Except.ok decision

/-- `str(e)` of the exception re-raised by the retry wrapper (`none` is
Python's degenerate `raise None`). -/
def errText : Option PyError → String
  | some e => e.msg
  | none => "NoneType"

/-- `BaseScraper.scrape`: the full workflow with the abstract subclass
hooks `fetch_raw` (attempt-indexed, run under `_retry_operation`) and
`parse_raw` as parameters.  Compliance failure, fetch exhaustion, parse
exception and an empty frame each set `error` and leave `success` false;
otherwise the frame is validated (warnings attached) and `success` set. -/
def scrape {Raw : Type} (source url : String) (max_retries : Nat)
    (robots_decision : RobotsDecision)
    (fetch_raw : Nat → Except PyError Raw)
    (parse_raw : Raw → Except PyError (Option DataFrame)) : ScraperResult :=
  let result0 : ScraperResult :=
    { success := false, data := none, source := source, url := url,
      rows_extracted := 0, validation_warnings := [], error := none,
      robots_decision := none }
  match check_compliance robots_decision with
  | .error msg => { result0 with error := some msg }
  | .ok dec =>
      let result1 := { result0 with robots_decision := some dec }
      match (_retry_operation max_retries fetch_raw).1 with
      | .error e => { result1 with error := some (errText e) }
      | .ok raw =>
          match parse_raw raw with
          | .error e => { result1 with error := some e.msg }
          | .ok df =>
              match df with
              | none => { result1 with error := some "No data extracted" }
              | some frame =>
                  if frame.isEmptyDf then
                    { result1 with error := some "No data extracted" }
                  else
                    { result1 with
                      success := true, data := some frame,
                      rows_extracted := frame.rows.length,
                      validation_warnings := validate (some frame) }

/-- Claim C5: every `ScraperResult` returned by `scrape` has `success`
false exactly when `error` carries a message, a successful result has a
null error whatever its warning list holds, and a successful result with
a non-empty warning list does occur (warnings and success are
orthogonal). -/
theorem scrape_success_error_mutually_exclusive {Raw : Type}
    (source url : String) (max_retries : Nat)
    (robots_decision : RobotsDecision)
    (fetch_raw : Nat → Except PyError Raw)
    (parse_raw : Raw → Except PyError (Option DataFrame)) :
    ((scrape source url max_retries robots_decision fetch_raw parse_raw).success = false
      ↔ (scrape source url max_retries robots_decision fetch_raw parse_raw).error.isSome) ∧
    ((scrape source url max_retries robots_decision fetch_raw parse_raw).success = true
      → (scrape source url max_retries robots_decision fetch_raw parse_raw).error = none) ∧
    (∃ r : ScraperResult,
      r = scrape "s" "u" 1 ⟨.ALLOWED, "ok"⟩
            (fun _ => Except.ok ())
            (fun _ => Except.ok (some ⟨["v"], [[Cell.num 1]]⟩)) ∧
      r.success = true ∧ r.validation_warnings ≠ [] ∧ r.error = none) := by
  refine ⟨?_, ?_, ?_⟩
  · unfold scrape
    split
    · simp
    · split
      · simp
      · split
        · simp
        · split
          · simp
          · split
            · simp
            · simp
  · unfold scrape
    split
    · simp
    · split
      · simp
      · split
        · simp
        · split
          · simp
          · split
            · simp
            · simp
  · exact ⟨_, rfl, by decide, by decide, by decide⟩

/-! ## Real-time normalization (src/services/realtime_normalizer.py)

`RealtimeNormalizer` receives its collaborators (scraper, transformers,
validator, metric mapper, warehouse) by constructor injection; the
embedding takes them as function parameters.  The per-source transformer
bodies are abstract here — `fetch_and_normalize`'s storage/filter
behaviour does not depend on them — while the dispatch logic
(`_get_source_name`, the TRANSFORMERS table, empty-frame skipping,
exception swallowing) is concrete. -/

/-- `RealtimeNormalizer._get_source_name`: keyword sniffing on the
site id, falling back to its first `_`-separated part. -/
def _get_source_name (site_id : String) : String :=
  let l := lowerChars site_id.data
  if charsContains l "coinglass".data then "coinglass"
  else if charsContains l "invezz".data then "invezz"
  else if charsContains l "coingecko".data then "coingecko"
  else if charsContains l "dune".data then "dune"
  else if charsContains l "theblock".data then "theblock"
  else
    match splitChars site_id.data ['_'] with
    | [] => "unknown"
    | p :: _ => String.mk p

/-- Keys of the `TRANSFORMERS` table. -/
def TRANSFORMER_SOURCES : List String :=
  ["coinglass", "invezz", "coingecko", "dune", "theblock"]

/-- `RealtimeNormalizer._normalize_data`: per site, skip empty frames and
unknown sources, run the source's transformer, swallow transformer
exceptions, and concatenate the produced points. -/
def _normalize_data
    (transform : String → DataFrame → Except PyError (List NormalizedDataPoint))
    (raw_data : List (String × DataFrame)) : List NormalizedDataPoint :=
  raw_data.foldl (fun acc site_df =>
    if site_df.2.isEmptyDf then acc
    else
      let source := _get_source_name site_df.1
      if TRANSFORMER_SOURCES.contains source then
        match transform source site_df.2 with
        | .ok pts => acc ++ pts
        | .error _ => acc
      else acc) []

/-- `ValidationReport` from src/normalizer/ai_validator.py (the fields the
orchestrator reads). -/
structure ValidationReport where
  passed : Bool
  warnings : List String
  errors : List String
deriving Repr, DecidableEq

/-- `RealtimeNormalizer._validate_data`: one report per source that
produced points, keyed by source name (later site ids with the same
source overwrite the entry, as in the Python dict). -/
def _validate_data
    (validator : DataFrame → List NormalizedDataPoint → String → ValidationReport)
    (raw_data : List (String × DataFrame))
    (pts : List NormalizedDataPoint) : List (String × ValidationReport) :=
  raw_data.foldl (fun acc site_df =>
    let source := _get_source_name site_df.1
    let source_points := pts.filter (fun p => p.source == source)
    if source_points.isEmpty then acc
    else if acc.any (fun kv => kv.1 == source) then
      acc.map (fun kv =>
        if kv.1 == source then (source, validator site_df.2 source_points source) else kv)
    else acc ++ [(source, validator site_df.2 source_points source)]) []

/-- `RealtimeNormalizer._store_data`: add every point to the warehouse and
report how many were handed over. -/
def _store_data (w : Warehouse) (points : List NormalizedDataPoint) :
    Nat × Warehouse :=
  if points.isEmpty then (0, w)
  else (points.length, add_data_points w points)

/-- `NormalizationResult` (raw frames and per-source reports omitted; the
claims concern the point lists, counts and message lists). -/
structure NormalizationResult where
  success : Bool
  asset : String
  categories : List String
  normalized_points : List NormalizedDataPoint
  points_added : Nat
  errors : List String
  warnings : List String
  sources_scraped : List String
deriving Repr, DecidableEq

/-- `RealtimeNormalizer.fetch_and_normalize`: scrape, normalize, validate,
filter the returned view by category (storage always receives the full
unfiltered point list), store, and assemble the result.  The final
warehouse state is returned alongside. -/
def fetch_and_normalize
    (scrape_asset_data : String → List (String × DataFrame))
    (transform : String → DataFrame → Except PyError (List NormalizedDataPoint))
    (validator : DataFrame → List NormalizedDataPoint → String → ValidationReport)
    (get_metrics_for_categories : List String → String → List String)
    (w : Warehouse) (asset : String) (categories : List String) :
    NormalizationResult × Warehouse :=
  let raw_data := scrape_asset_data asset
  if raw_data.isEmpty then
    ({ success := false, asset := asset, categories := categories,
       normalized_points := [], points_added := 0,
       errors := ["No data scraped for asset: " ++ asset], warnings := [],
       sources_scraped := [] }, w)
  else
    let sources_scraped := raw_data.map (fun kv => kv.1)
    let normalized_points := _normalize_data transform raw_data
    if normalized_points.isEmpty then
      ({ success := false, asset := asset, categories := categories,
         normalized_points := [], points_added := 0,
         errors := ["No normalized data points created"], warnings := [],
         sources_scraped := sources_scraped }, w)
    else
      let reports := _validate_data validator raw_data normalized_points
      let verrors := reports.foldl (fun acc kv =>
        if !kv.2.passed then acc ++ kv.2.errors.map (fun e => kv.1 ++ ": " ++ e)
        else acc) []
      let vwarnings := reports.foldl (fun acc kv =>
        acc ++ kv.2.warnings.map (fun m => kv.1 ++ ": " ++ m)) []
      let all_normalized_points := normalized_points
      let view :=
        if categories.isEmpty then normalized_points
        else
          let target := get_metrics_for_categories categories asset
          let filtered := normalized_points.filter (fun p => target.contains p.metric)
          if filtered.length < normalized_points.length then filtered
          else normalized_points
      let vwarnings2 :=
        if !categories.isEmpty && view.isEmpty && !all_normalized_points.isEmpty then
          vwarnings ++ ["No normalized metrics matched the selected categories; stored unfiltered points but returned an empty filtered view."]
        else vwarnings
      let stored := _store_data w all_normalized_points
      ({ success := true, asset := asset, categories := categories,
         normalized_points := view, points_added := stored.1,
         errors := verrors, warnings := vwarnings2,
         sources_scraped := sources_scraped }, stored.2)

/-- Warehouse ids only grow under one insert. -/
theorem ids_subset_add (w : Warehouse) (p : NormalizedDataPoint) :
    warehouseIds w ⊆ warehouseIds (add_data_point w p) := by
  unfold add_data_point
  split
  · next he =>
      rw [List.isEmpty_iff] at he
      subst he
      simp [warehouseIds]
  · split
    · exact fun x hx => hx
    · intro x hx
      unfold warehouseIds at hx ⊢
      rw [List.map_append]
      exact List.mem_append_left _ hx

/-- The inserted point's id is present after one insert. -/
theorem mem_ids_add (w : Warehouse) (p : NormalizedDataPoint) :
    p.id ∈ warehouseIds (add_data_point w p) := by
  unfold add_data_point
  split
  · simp [warehouseIds, pointToRow]
  · split
    · next hw hc => exact (contains_iff_mem_ids w p.id).mp hc
    · unfold warehouseIds
      rw [List.map_append]
      apply List.mem_append_right
      simp [pointToRow]

/-- Warehouse ids only grow under a batch insert. -/
theorem ids_subset_adds (w : Warehouse) (ps : List NormalizedDataPoint) :
    warehouseIds w ⊆ warehouseIds (add_data_points w ps) := by
  induction ps generalizing w with
  | nil => exact fun x hx => hx
  | cons p ps ih =>
      intro x hx
      exact ih (add_data_point w p) (ids_subset_add w p hx)

/-- After a batch insert, every inserted point's id is stored. -/
theorem mem_ids_adds (w : Warehouse) (ps : List NormalizedDataPoint) :
    ∀ p ∈ ps, p.id ∈ warehouseIds (add_data_points w ps) := by
  induction ps generalizing w with
  | nil => intro p hp; cases hp
  | cons q ps ih =>
      intro p hp
      rcases List.mem_cons.mp hp with h | h
      · subst h
        exact ids_subset_adds (add_data_point w p) ps (mem_ids_add w p)
      · exact ih (add_data_point w q) p h

/-- The filtered view (kept only when it is strictly smaller) is a
sublist of the full point list. -/
theorem view_sublist (all : List NormalizedDataPoint)
    (f : NormalizedDataPoint → Bool) :
    (if (all.filter f).length < all.length then all.filter f else all).Sublist all := by
  split
  · exact List.filter_sublist all
  · exact List.Sublist.refl all

/-- Every point of the view satisfies the filter predicate (when the
strictly-smaller test fails, the filter kept everything). -/
theorem view_mem_pred (all : List NormalizedDataPoint)
    (f : NormalizedDataPoint → Bool) :
    ∀ p ∈ (if (all.filter f).length < all.length then all.filter f else all),
      f p = true := by
  split
  · intro p hp
    exact (List.mem_filter.mp hp).2
  · next hlen =>
    intro p hp
    have hle := List.length_filter_le f all
    have heq : (all.filter f).length = all.length := by omega
    have hall := List.filter_length_eq_length.mp heq
    exact hall p hp

/-- Claim C2: whenever `fetch_and_normalize` produces a non-empty point
list, every produced point's id is stored in the resulting warehouse
(category filter included), the returned `normalized_points` view is a
sublist of the produced points, and with a non-empty category selection
every returned point's metric lies in the mapped target metrics. -/
theorem category_filter_is_view_only
    (scrape_asset_data : String → List (String × DataFrame))
    (transform : String → DataFrame → Except PyError (List NormalizedDataPoint))
    (validator : DataFrame → List NormalizedDataPoint → String → ValidationReport)
    (get_metrics_for_categories : List String → String → List String)
    (w : Warehouse) (asset : String) (categories : List String)
    (hne : _normalize_data transform (scrape_asset_data asset) ≠ []) :
    (∀ p ∈ _normalize_data transform (scrape_asset_data asset),
      p.id ∈ warehouseIds
        (fetch_and_normalize scrape_asset_data transform validator
          get_metrics_for_categories w asset categories).2) ∧
    ((fetch_and_normalize scrape_asset_data transform validator
        get_metrics_for_categories w asset categories).1.normalized_points.Sublist
      (_normalize_data transform (scrape_asset_data asset))) ∧
    (categories ≠ [] →
      ∀ p ∈ (fetch_and_normalize scrape_asset_data transform validator
          get_metrics_for_categories w asset categories).1.normalized_points,
        (get_metrics_for_categories categories asset).contains p.metric) := by
  have hraw : ¬ (scrape_asset_data asset).isEmpty := by
    intro he
    rw [List.isEmpty_iff] at he
    apply hne
    rw [he]
    rfl
  have hnorm : ¬ (_normalize_data transform (scrape_asset_data asset)).isEmpty := by
    intro he
    rw [List.isEmpty_iff] at he
    exact hne he
  unfold fetch_and_normalize
  simp only [hraw, if_false, hnorm, Bool.false_eq_true, _store_data, hnorm]
  refine ⟨?_, ?_, ?_⟩
  · intro p hp
    exact mem_ids_adds w _ p hp
  · cases hc : categories.isEmpty with
    | true =>
        simp only [hc, if_true]
        exact List.Sublist.refl _
    | false =>
        simp only [hc, Bool.false_eq_true, if_false]
        exact view_sublist _ _
  · intro hcats p hp
    have hc : categories.isEmpty = false := by
      cases h : categories.isEmpty with
      | true =>
          rw [List.isEmpty_iff] at h
          exact absurd h hcats
      | false => rfl
    rw [hc] at hp
    simp only [Bool.false_eq_true, if_false] at hp
    exact view_mem_pred _ _ p hp

/-- Witness for C2: a concrete run producing two points, only one in the
selected category; both are stored, the view holds just the matching
one. -/
theorem category_filter_is_view_only_witness :
    let df : DataFrame := ⟨["v"], [[Cell.num 1]]⟩
    let p1 : NormalizedDataPoint :=
      { id := "coinglass_BTC_m1_1", source := "coinglass", asset := "BTC",
        metric := "m1", timestamp := 1, date := 1, value := 1,
        value_usd := none, value_btc := none, unit := "USD",
        confidence := 90, data_type := "aggregate", category := "volume",
        raw_source_field := "", metadata := [] }
    let p2 : NormalizedDataPoint := { p1 with id := "coinglass_BTC_m2_1", metric := "m2" }
    let scr : String → List (String × DataFrame) := fun _ => [("coinglass_btc", df)]
    let tr : String → DataFrame → Except PyError (List NormalizedDataPoint) :=
      fun _ _ => .ok [p1, p2]
    let va : DataFrame → List NormalizedDataPoint → String → ValidationReport :=
      fun _ _ _ => ⟨true, [], []⟩
    let mp : List String → String → List String := fun _ _ => ["m1"]
    _normalize_data tr (scr "BTC") ≠ [] ∧
    (∀ p ∈ _normalize_data tr (scr "BTC"),
      p.id ∈ warehouseIds (fetch_and_normalize scr tr va mp [] "BTC" ["volume"]).2) := by
  intro df p1 p2 scr tr va mp
  refine ⟨by decide, ?_⟩
  exact (category_filter_is_view_only scr tr va mp [] "BTC" ["volume"] (by decide)).1

/-! ## Network inspector (src/detector/network_inspector.py)

The confidence scorer works on captured `NetworkRequest`s.  Float scores
are modelled as rationals (every constant is decimal).  `json.loads` is a
library function and enters as a parameter `json_loads`; the structural
analysis `_analyze_json` on the parsed value is concrete. -/

/-- A parsed JSON value. -/
inductive Json where
  | null
  | bool (b : Bool)
  | num (q : Rat)
  | str (s : String)
  | arr (xs : List Json)
  | obj (kvs : List (String × Json))

/-- `NetworkRequest` from src/utils/browser.py; the response body is kept
as its best-effort UTF-8 decoding. -/
structure NetworkRequest where
  url : String
  method : String
  resource_type : String
  status : Option Int
  content_type : Option String
  content_length : Option Int
  response_body : Option String
deriving Repr, DecidableEq

/-- `NetworkRequest.is_json`. -/
def NetworkRequest.is_json (r : NetworkRequest) : Bool :=
  match r.content_type with
  | none => false
  | some ct => charsContains (lowerChars ct.data) "json".data

/-- `NetworkRequest.is_csv`. -/
def NetworkRequest.is_csv (r : NetworkRequest) : Bool :=
  match r.content_type with
  | none => false
  | some ct => charsContains (lowerChars ct.data) "csv".data

/-- `urllib.parse.urlparse(url).netloc` for absolute URLs: the text
between `://` and the next `/`, `?` or `#` (empty without a scheme). -/
def urlparseNetloc (url : String) : String :=
  match listFindDrop "://".data url.data with
  | none => ""
  | some rest =>
      String.mk (rest.takeWhile (fun c => !(c == '/' || c == '?' || c == '#')))

/-- The fixed data-endpoint keyword list. -/
def DATA_KEYWORDS : List String :=
  ["api", "chart", "data", "series", "history", "export",
   "json", "csv", "stats", "metrics", "prices", "volume",
   "market", "ticker", "quote", "ohlc", "candle"]

/-- The fixed tracking/analytics keyword list. -/
def TRACKING_KEYWORDS : List String :=
  ["analytics", "tracking", "pixel", "beacon", "collect",
   "facebook", "google-analytics", "clarity", "hotjar",
   "segment", "amplitude", "mixpanel", "gtm", "recaptcha",
   "cookie", "consent", "ads", "advertising"]

/-- ASCII digit test (regex `\d` on the bodies at hand). -/
def isDigitChar (c : Char) : Bool := '0' ≤ c && c ≤ '9'

/-- Does `f` hold on some suffix of `s` (regex `re.search` at some start
position)? -/
def anySuffix (f : PyStr → Bool) : PyStr → Bool
  | [] => f []
  | c :: tl => f (c :: tl) || anySuffix f tl

/-- Regex `\d{4}-\d{2}-\d{2}` anchored at the current position. -/
def matchesDateAt : PyStr → Bool
  | a :: b :: c :: d :: '-' :: e :: f :: '-' :: g :: h :: _ =>
      isDigitChar a && isDigitChar b && isDigitChar c && isDigitChar d &&
      isDigitChar e && isDigitChar f && isDigitChar g && isDigitChar h
  | _ => false

/-- Regex `\d{10,13}` found by `re.search`: ten consecutive digits start
at the current position. -/
def matchesDigitRun10At (s : PyStr) : Bool :=
  (s.takeWhile isDigitChar).length ≥ 10

/-- Regex `\[\s*\{[^}]+\}\s*,\s*\{[^}]+\}` anchored at the current
position: an opening bracket, two non-empty brace groups separated by a
comma, with optional whitespace. -/
def matchesObjPairAt : PyStr → Bool
  | '[' :: rest =>
      match rest.dropWhile isSpaceChar with
      | '{' :: r2 =>
          let body := r2.takeWhile (fun c => !(c == '}'))
          if body.isEmpty then false
          else
            match r2.dropWhile (fun c => !(c == '}')) with
            | '}' :: r4 =>
                match r4.dropWhile isSpaceChar with
                | ',' :: r6 =>
                    match r6.dropWhile isSpaceChar with
                    | '{' :: r8 =>
                        let body2 := r8.takeWhile (fun c => !(c == '}'))
                        !body2.isEmpty &&
                          (match r8.dropWhile (fun c => !(c == '}')) with
                           | '}' :: _ => true
                           | _ => false)
                    | _ => false
                | _ => false
            | _ => false
      | _ => false
  | _ => false

/-- `NetworkInspector._looks_like_timeseries`: at least one date-like
pattern and an array-of-objects shape. -/
def _looks_like_timeseries (body : String) : Bool :=
  let s := body.data
  let date_matches :=
    (if anySuffix matchesDateAt s then 1 else 0) +
    (if anySuffix matchesDigitRun10At s then 1 else 0) +
    (if charsContains s "\x22date\x22".data then 1 else 0) +
    (if charsContains s "\x22time\x22".data then 1 else 0) +
    (if charsContains s "\x22timestamp\x22".data then 1 else 0)
  decide (date_matches ≥ 1) && anySuffix matchesObjPairAt s

/-- `NetworkInspector._calculate_score`: the additive keyword/structure/
size heuristic, divided by 10 and clamped to [0, 1]. -/
def _calculate_score (request : NetworkRequest) (target_domain : Option String) : Rat :=
  let url_lower := lowerChars request.url.data
  let score : Rat := 0
  let score := score +
    2 * ((DATA_KEYWORDS.filter (fun k => charsContains url_lower k.data)).length : Rat)
  let score := score -
    2 * ((TRACKING_KEYWORDS.filter (fun k => charsContains url_lower k.data)).length : Rat)
  let score :=
    if request.is_json then score + 1
    else if request.is_csv then score + 3/2
    else score
  let score :=
    match target_domain with
    | some td => if td ≠ "" ∧ urlparseNetloc request.url = td then score + 1/2 else score
    | none => score
  let score :=
    match request.content_length with
    | some n =>
        if n ≠ 0 then
          let s1 := if n > 1000 then score + 1/2 else score
          if n > 10000 then s1 + 1/2 else s1
        else score
    | none => score
  let score :=
    match request.response_body with
    | some b => if b ≠ "" ∧ _looks_like_timeseries b then score + 3 else score
    | none => score
  min (max (score / 10) 0) 1

/-- `CandidateEndpoint`. -/
structure CandidateEndpoint where
  url : String
  method : String
  content_type : String
  confidence_score : Rat
  data_preview : Option String
  detected_structure : Option String
  field_names : List String
  row_count_estimate : Option Nat
  response_body : Option String

/-- One step of `_analyze_json`'s dict loop: the Bool marks Python's
`break` (taken at the first list-of-dicts value; list-of-numbers values
update the candidate but do not break). -/
def analyzeObjStep (st : CandidateEndpoint × Bool) (kv : String × Json) :
    CandidateEndpoint × Bool :=
  if st.2 then st
  else
    match kv.2 with
    | .arr (v0 :: vs) =>
        match v0 with
        | .obj fkvs =>
            ({ st.1 with detected_structure := some "nested_timeseries",
                         row_count_estimate := some (vs.length + 1),
                         field_names := fkvs.map (fun f => f.1) }, true)
        | .num _ =>
            ({ st.1 with detected_structure := some "value_arrays",
                         row_count_estimate := some (vs.length + 1),
                         field_names := st.1.field_names ++ [kv.1] }, false)
        | .bool _ =>
            ({ st.1 with detected_structure := some "value_arrays",
                         row_count_estimate := some (vs.length + 1),
                         field_names := st.1.field_names ++ [kv.1] }, false)
        | _ => (st.1, false)
    | _ => (st.1, false)

/-- `NetworkInspector._analyze_json`: classify the parsed value's shape
and fill in structure, field names and row-count estimate (Python bools
count as numbers for the `value_arrays` case, as in `isinstance(x,
(int, float))`). -/
def _analyze_json (c : CandidateEndpoint) (data : Json) : CandidateEndpoint :=
  match data with
  | .arr xs =>
      let c1 := { c with detected_structure := some "array",
                         row_count_estimate := some xs.length }
      match xs with
      | .obj kvs :: _ =>
          { c1 with field_names := kvs.map (fun f => f.1),
                    detected_structure := some "timeseries" }
      | _ => c1
  | .obj kvs =>
      let st := kvs.foldl analyzeObjStep (c, false)
      if st.1.detected_structure.getD "" = "" then
        { st.1 with detected_structure := some "object",
                    field_names := kvs.map (fun f => f.1) }
      else st.1
  | _ => c

/-- `NetworkInspector._analyze_response`: parse as JSON when possible,
analyze the structure, and attach a 500-character preview. -/
def _analyze_response (json_loads : String → Option Json)
    (c : CandidateEndpoint) (body : String) : CandidateEndpoint :=
  let c1 :=
    match json_loads body with
    | some d => _analyze_json c d
    | none => c
  let preview := String.mk (body.data.take 500)
  let preview := if body.data.length > 500 then preview ++ "..." else preview
  { c1 with data_preview := some preview }

/-- Confidence-descending comparison used by the final candidate sort. -/
def scoreDesc (a b : CandidateEndpoint) : Bool :=
  decide (b.confidence_score ≤ a.confidence_score)

/-- One iteration of `analyze_requests`' loop: skip non-200 and
non-JSON/CSV responses and scores below 0.2; otherwise build the
candidate, enrich it from the body, and append it. -/
def analyzeStep (json_loads : String → Option Json) (target_domain : Option String)
    (acc : List CandidateEndpoint) (request : NetworkRequest) :
    List CandidateEndpoint :=
  if request.status ≠ some 200 then acc
  else if !request.is_json && !request.is_csv then acc
  else
    let score := _calculate_score request target_domain
    if score < 1/5 then acc
    else
      let candidate : CandidateEndpoint :=
        { url := request.url, method := request.method,
          content_type := request.content_type.getD "",
          confidence_score := score, data_preview := none,
          detected_structure := none, field_names := [],
          row_count_estimate := none,
          response_body := request.response_body }
      let candidate2 :=
        match request.response_body with
        | some b =>
            if b ≠ "" then _analyze_response json_loads candidate b else candidate
        | none => candidate
      acc ++ [candidate2]

/-- `NetworkInspector.analyze_requests`: run the loop over the captured
requests and sort the surviving candidates by confidence descending. -/
def analyze_requests (json_loads : String → Option Json)
    (requests : List NetworkRequest) (target_url : Option String) :
    List CandidateEndpoint :=
  let target_domain :=
    match target_url with
    | some u => if u = "" then none else some (urlparseNetloc u)
    | none => none
  (requests.foldl (analyzeStep json_loads target_domain) []).mergeSort scoreDesc

/-- The dict-loop step never changes the confidence score. -/
theorem analyzeObjStep_score (st : CandidateEndpoint × Bool) (kv : String × Json) :
    (analyzeObjStep st kv).1.confidence_score = st.1.confidence_score := by
  unfold analyzeObjStep
  repeat' split
  all_goals rfl

/-- The folded dict loop never changes the confidence score. -/
theorem foldl_analyzeObjStep_score (kvs : List (String × Json))
    (st : CandidateEndpoint × Bool) :
    (kvs.foldl analyzeObjStep st).1.confidence_score = st.1.confidence_score := by
  induction kvs generalizing st with
  | nil => rfl
  | cons kv tl ih => rw [List.foldl_cons, ih, analyzeObjStep_score]

/-- `_analyze_json` never changes the confidence score. -/
theorem analyze_json_score (c : CandidateEndpoint) (d : Json) :
    (_analyze_json c d).confidence_score = c.confidence_score := by
  cases d with
  | arr xs =>
      cases xs with
      | nil => rfl
      | cons v0 vs => cases v0 <;> rfl
  | obj kvs =>
      show (if (kvs.foldl analyzeObjStep (c, false)).1.detected_structure.getD "" = ""
        then _ else _ : CandidateEndpoint).confidence_score = c.confidence_score
      split
      · exact foldl_analyzeObjStep_score kvs (c, false)
      · exact foldl_analyzeObjStep_score kvs (c, false)
  | null => rfl
  | bool b => rfl
  | num q => rfl
  | str s => rfl

/-- `_analyze_response` never changes the confidence score. -/
theorem analyze_response_score (json_loads : String → Option Json)
    (c : CandidateEndpoint) (b : String) :
    (_analyze_response json_loads c b).confidence_score = c.confidence_score := by
  unfold _analyze_response
  cases hjl : json_loads b with
  | none => rfl
  | some d =>
      show (_analyze_json c d).confidence_score = c.confidence_score
      exact analyze_json_score c d

/-- Every candidate that `analyzeStep` appends has score at least 0.2. -/
theorem analyzeStep_mem (json_loads : String → Option Json)
    (target_domain : Option String) (acc : List CandidateEndpoint)
    (request : NetworkRequest) (c : CandidateEndpoint)
    (hc : c ∈ analyzeStep json_loads target_domain acc request) :
    c ∈ acc ∨ 1/5 ≤ c.confidence_score := by
  unfold analyzeStep at hc
  split at hc
  · exact Or.inl hc
  · split at hc
    · exact Or.inl hc
    · dsimp only at hc
      split at hc
      · exact Or.inl hc
      · next hscore =>
          rcases List.mem_append.mp hc with h1 | h1
          · exact Or.inl h1
          · right
            have hc2 : c ∈ [_] := h1
            rw [List.mem_singleton] at hc2
            subst hc2
            have hs : ¬ _calculate_score request target_domain < 1/5 := hscore
            have hle : 1/5 ≤ _calculate_score request target_domain := le_of_not_lt hs
            cases hb : request.response_body with
            | none => simpa [hb] using hle
            | some b =>
                by_cases hbe : b ≠ ""
                · simpa [hb, hbe, analyze_response_score] using hle
                · simpa [hb, hbe] using hle

/-- The loop only produces candidates scoring at least 0.2. -/
theorem foldl_analyzeStep_scores (json_loads : String → Option Json)
    (target_domain : Option String) (requests : List NetworkRequest)
    (acc : List CandidateEndpoint)
    (hacc : ∀ c ∈ acc, 1/5 ≤ c.confidence_score) :
    ∀ c ∈ requests.foldl (analyzeStep json_loads target_domain) acc,
      1/5 ≤ c.confidence_score := by
  induction requests generalizing acc with
  | nil => exact hacc
  | cons r tl ih =>
      intro c hc
      refine ih (analyzeStep json_loads target_domain acc r) ?_ c hc
      intro c' hc'
      rcases analyzeStep_mem json_loads target_domain acc r c' hc' with h | h
      · exact hacc c' h
      · exact h

/-- Claim C6: the candidate list is sorted non-increasing by confidence
(every adjacent pair, indeed every ordered pair, satisfies
`confidence[i] >= confidence[i+1]`), and no returned candidate's rescaled
score is below 0.2. -/
theorem candidates_sorted_and_thresholded (json_loads : String → Option Json)
    (requests : List NetworkRequest) (target_url : Option String) :
    ((analyze_requests json_loads requests target_url).Pairwise
        (fun a b => b.confidence_score ≤ a.confidence_score)) ∧
    (∀ c ∈ analyze_requests json_loads requests target_url,
      1/5 ≤ c.confidence_score) := by
  constructor
  · have htrans : ∀ a b c : CandidateEndpoint,
        scoreDesc a b → scoreDesc b c → scoreDesc a c := by
      intro a b c hab hbc
      simp only [scoreDesc, decide_eq_true_eq] at *
      exact le_trans hbc hab
    have htotal : ∀ a b : CandidateEndpoint, scoreDesc a b || scoreDesc b a := by
      intro a b
      simp only [scoreDesc, Bool.or_eq_true, decide_eq_true_eq]
      exact le_total _ _
    have h := List.sorted_mergeSort htrans htotal
      (List.foldl (analyzeStep json_loads
        (match target_url with
         | some u => if u = "" then none else some (urlparseNetloc u)
         | none => none)) [] requests)
    exact h.imp (fun hab => by
      simpa only [scoreDesc, decide_eq_true_eq] using hab)
  · intro c hc
    unfold analyze_requests at hc
    rw [List.mem_mergeSort] at hc
    exact foldl_analyzeStep_scores _ _ requests [] (by intro c' hc'; cases hc') c hc

/-- Claim C7: the rescaled confidence score lies in [0, 1] for every
request and target domain. -/
theorem score_bounds (request : NetworkRequest) (target_domain : Option String) :
    0 ≤ _calculate_score request target_domain ∧
    _calculate_score request target_domain ≤ 1 := by
  unfold _calculate_score
  constructor
  · exact le_min (le_max_right _ _) zero_le_one
  · exact min_le_right _ _


/-! ## Structural validation (src/pipeline/validators.py)

`ValidationResult` collects errors (which flip `is_valid` to false) and
warnings (which never touch it); `_check_null_values` applies the
50%/10% null-fraction thresholds per column.  The formatted percentage
inside the message text is not reproduced; the column name is. -/

/-- `ValidationResult`. -/
structure ValidationResult where
  is_valid : Bool
  errors : List String
  warnings : List String
deriving Repr, DecidableEq

/-- `ValidationResult.add_error` (makes the result invalid). -/
def add_error (r : ValidationResult) (m : String) : ValidationResult :=
  { r with errors := r.errors ++ [m], is_valid := false }

/-- `ValidationResult.add_warning` (validity untouched). -/
def add_warning (r : ValidationResult) (m : String) : ValidationResult :=
  { r with warnings := r.warnings ++ [m] }

/-- The null percentage `count / len(df) * 100` of column `i`. -/
def nullPct (df : DataFrame) (i : Nat) : Rat :=
  (nanCount df.rows i : Rat) / (df.rows.length : Rat) * 100

/-- The per-column body of `_check_null_values`: columns with nulls get an
error above 50% null fraction, a warning above 10%. -/
def nullStep (df : DataFrame) (res : ValidationResult) (i : Nat) : ValidationResult :=
  if 0 < nanCount df.rows i then
    if 50 < nullPct df i then
      add_error res ("Column '" ++ df.columns.getD i "" ++ "' has more than 50% null values")
    else if 10 < nullPct df i then
      add_warning res ("Column '" ++ df.columns.getD i "" ++ "' has null values")
    else res
  else res

/-- `DataValidator._check_null_values`: fold the per-column check over all
columns. -/
def _check_null_values (df : DataFrame) (r : ValidationResult) : ValidationResult :=
  (List.range df.columns.length).foldl (nullStep df) r

/-- One null-check step keeps an already-false validity false. -/
theorem nullStep_keeps_false (df : DataFrame) (res : ValidationResult) (i : Nat)
    (h : res.is_valid = false) : (nullStep df res i).is_valid = false := by
  unfold nullStep
  repeat' split
  all_goals simp [add_error, add_warning, h]

/-- The folded null check keeps an already-false validity false. -/
theorem nullFold_keeps_false (df : DataFrame) (l : List Nat) :
    ∀ res : ValidationResult, res.is_valid = false →
      (l.foldl (nullStep df) res).is_valid = false := by
  induction l with
  | nil => exact fun _ h => h
  | cons a tl ih =>
      intro res h
      exact ih _ (nullStep_keeps_false df res a h)

/-- A column whose null fraction exceeds 50% flips validity in its own
step. -/
theorem nullStep_err (df : DataFrame) (res : ValidationResult) (i : Nat)
    (h : 50 < nullPct df i) : (nullStep df res i).is_valid = false := by
  have hcount : 0 < nanCount df.rows i := by
    by_contra hc
    have h0 : nanCount df.rows i = 0 := by omega
    rw [nullPct, h0] at h
    norm_num at h
  unfold nullStep
  rw [if_pos hcount, if_pos h]
  simp [add_error]

/-- A step for a column at or below the 50% threshold adds no error and
keeps validity. -/
theorem nullStep_no_err (df : DataFrame) (res : ValidationResult) (i : Nat)
    (h : nullPct df i ≤ 50) :
    (nullStep df res i).errors = res.errors ∧
    (nullStep df res i).is_valid = res.is_valid := by
  unfold nullStep
  split
  · rw [if_neg (not_lt.mpr h)]
    split
    · simp [add_warning]
    · exact ⟨rfl, rfl⟩
  · exact ⟨rfl, rfl⟩

/-- One step never shrinks the warning list. -/
theorem nullStep_warn_mono (df : DataFrame) (res : ValidationResult) (i : Nat) :
    res.warnings.length ≤ (nullStep df res i).warnings.length := by
  unfold nullStep
  repeat' split
  all_goals simp [add_error, add_warning]

/-- The fold never shrinks the warning list. -/
theorem nullFold_warn_mono (df : DataFrame) (l : List Nat) :
    ∀ res : ValidationResult,
      res.warnings.length ≤ (l.foldl (nullStep df) res).warnings.length := by
  induction l with
  | nil => exact fun _ => le_refl _
  | cons a tl ih =>
      intro res
      exact le_trans (nullStep_warn_mono df res a) (ih _)

/-- A column in the warning band (10% < fraction ≤ 50%) adds exactly one
warning in its own step. -/
theorem nullStep_warn (df : DataFrame) (res : ValidationResult) (i : Nat)
    (h10 : 10 < nullPct df i) (h50 : nullPct df i ≤ 50) :
    (nullStep df res i).warnings.length = res.warnings.length + 1 := by
  have hcount : 0 < nanCount df.rows i := by
    by_contra hc
    have h0 : nanCount df.rows i = 0 := by omega
    rw [nullPct, h0] at h10
    norm_num at h10
  unfold nullStep
  rw [if_pos hcount, if_neg (not_lt.mpr h50), if_pos h10]
  simp [add_warning]

/-- Fold over a list containing an over-50% column yields invalid. -/
theorem nullFold_err (df : DataFrame) (l : List Nat) (i : Nat)
    (h : 50 < nullPct df i) :
    ∀ res : ValidationResult, i ∈ l →
      (l.foldl (nullStep df) res).is_valid = false := by
  induction l with
  | nil => intro res hi; cases hi
  | cons a tl ih =>
      intro res hi
      rcases List.mem_cons.mp hi with rfl | hmem
      · exact nullFold_keeps_false df tl _ (nullStep_err df res i h)
      · exact ih _ hmem

/-- Fold over columns all at or below 50% preserves errors and
validity. -/
theorem nullFold_no_err (df : DataFrame) (l : List Nat)
    (h : ∀ i ∈ l, nullPct df i ≤ 50) :
    ∀ res : ValidationResult,
      (l.foldl (nullStep df) res).errors = res.errors ∧
      (l.foldl (nullStep df) res).is_valid = res.is_valid := by
  induction l with
  | nil => exact fun _ => ⟨rfl, rfl⟩
  | cons a tl ih =>
      intro res
      have ha := nullStep_no_err df res a (h a (List.mem_cons_self a tl))
      have htl := ih (fun i hi => h i (List.mem_cons_of_mem a hi)) (nullStep df res a)
      exact ⟨htl.1.trans ha.1, htl.2.trans ha.2⟩

/-- Fold over a list containing a warning-band column strictly grows the
warning list. -/
theorem nullFold_warn (df : DataFrame) (l : List Nat) (i : Nat)
    (h10 : 10 < nullPct df i) (h50 : nullPct df i ≤ 50) :
    ∀ res : ValidationResult, i ∈ l →
      res.warnings.length < (l.foldl (nullStep df) res).warnings.length := by
  induction l with
  | nil => intro res hi; cases hi
  | cons a tl ih =>
      intro res hi
      rcases List.mem_cons.mp hi with rfl | hmem
      · calc res.warnings.length < (nullStep df res i).warnings.length := by
              rw [nullStep_warn df res i h10 h50]
              omega
          _ ≤ _ := nullFold_warn_mono df tl _
      · exact lt_of_le_of_lt (nullStep_warn_mono df res a) (ih _ hmem)

/-- Claim C8: on a non-empty table, a column whose null fraction exceeds
the 50% threshold (e.g. 60%) makes `_check_null_values` produce an
invalid result via an error; when every column is at or below 50%, the
error list and validity are untouched; and a column in the warning band
(e.g. 15%) strictly grows the warning list without touching validity. -/
theorem null_value_thresholds (df : DataFrame) (r : ValidationResult)
    (_hrows : df.rows ≠ []) :
    (∀ i ∈ List.range df.columns.length, 50 < nullPct df i →
      (_check_null_values df r).is_valid = false) ∧
    ((∀ j ∈ List.range df.columns.length, nullPct df j ≤ 50) →
      (_check_null_values df r).errors = r.errors ∧
      (_check_null_values df r).is_valid = r.is_valid) ∧
    (∀ j ∈ List.range df.columns.length,
      10 < nullPct df j → nullPct df j ≤ 50 →
      r.warnings.length < (_check_null_values df r).warnings.length) := by
  refine ⟨?_, ?_, ?_⟩
  · intro i hi h
    exact nullFold_err df _ i h r hi
  · intro h
    exact nullFold_no_err df _ h r
  · intro j hj h10 h50
    exact nullFold_warn df _ j h10 h50 r hj

/-- Witness for C8: a 5-row table with 3 nulls (60%) turns invalid; a
20-row table with 3 nulls (15%) keeps `is_valid` and errors and gains a
warning. -/
theorem null_value_thresholds_witness :
    let df60 : DataFrame := ⟨["value"],
      [[Cell.na], [Cell.na], [Cell.na], [Cell.num 1], [Cell.num 2]]⟩
    let df15 : DataFrame := ⟨["value"],
      List.replicate 3 [Cell.na] ++ List.replicate 17 [Cell.num 1]⟩
    let r0 : ValidationResult := ⟨true, [], []⟩
    df60.rows ≠ [] ∧
    (_check_null_values df60 r0).is_valid = false ∧
    df15.rows ≠ [] ∧
    (_check_null_values df15 r0).errors = [] ∧
    (_check_null_values df15 r0).is_valid = true ∧
    (0 : Nat) < (_check_null_values df15 r0).warnings.length := by
  intro df60 df15 r0
  have hpct60 : nullPct df60 0 = 60 := by
    have hc : nanCount df60.rows 0 = 3 := by decide
    have hl : df60.rows.length = 5 := rfl
    rw [nullPct, hc, hl]
    norm_num
  have hpct15 : nullPct df15 0 = 15 := by
    have hc : nanCount df15.rows 0 = 3 := by decide
    have hl : df15.rows.length = 20 := by decide
    rw [nullPct, hc, hl]
    norm_num
  have hall15 : ∀ j ∈ List.range df15.columns.length, nullPct df15 j ≤ 50 := by
    intro j hj
    rw [List.mem_range] at hj
    have hj0 : j = 0 := by
      have : df15.columns.length = 1 := rfl
      omega
    rw [hj0, hpct15]
    norm_num
  refine ⟨by decide, ?_, by decide, ?_, ?_, ?_⟩
  · exact (null_value_thresholds df60 r0 (by decide)).1 0 (by decide)
      (by rw [hpct60]; norm_num)
  · exact ((null_value_thresholds df15 r0 (by decide)).2.1 hall15).1
  · exact ((null_value_thresholds df15 r0 (by decide)).2.1 hall15).2
  · exact (null_value_thresholds df15 r0 (by decide)).2.2 0 (by decide)
      (by rw [hpct15]; norm_num) (by rw [hpct15]; norm_num)

/-! ## JSON extractor (src/extractor/json_extractor.py)

`JsonExtractor.extract` receives already-parsed JSON (the `str`/`bytes`
front door is `json.loads`, an external library call), optionally
navigates a dot-path, builds a frame from the structure, applies field
mappings, and converts date-like columns.  Extractor frames can hold
arbitrary Python objects in their cells, so cells are `Option Json`
(`none` is NaN).  `json.dumps` for the flattening of nested values is a
library function and enters as the parameter `json_dumps`.  pandas
`Timestamp`s are modelled as a tagged wrapper around the raw parsed
value; the object-dtype sampling branch is modelled as firing on columns
whose first non-null value is a string. -/

/-- Python `str.isdigit()`. -/
def isdigitChars (s : PyStr) : Bool := !s.isEmpty && s.all isDigitChar

/-- Python `int(s)` on a digit string. -/
def charsToNat (s : PyStr) : Nat :=
  s.foldl (fun n c => n * 10 + (c.toNat - '0'.toNat)) 0

/-- `JsonExtractor._navigate_path`: walk the dot-separated path, numeric
segments as array indices; any unresolved segment raises a `KeyError`. -/
def _navigate_path (data : Json) (path : String) : Except String Json :=
  (splitChars path.data ['.']).foldl (fun acc part =>
    match acc with
    | .error e => .error e
    | .ok d =>
        if part.isEmpty then .ok d
        else if isdigitChars part then
          let idx := charsToNat part
          match d with
          | .arr xs =>
              if idx < xs.length then .ok (xs.getD idx .null)
              else .error ("Array index " ++ toString idx ++ " out of range")
          | _ => .error ("Array index " ++ toString idx ++ " out of range")
        else
          match d with
          | .obj kvs =>
              match kvs.find? (fun kv => kv.1.data == part) with
              | some kv => .ok kv.2
              | none => .error ("Key '" ++ String.mk part ++ "' not found in data")
          | _ => .error ("Cannot navigate '" ++ String.mk part ++ "'")) (.ok data)

/-- A pandas DataFrame holding arbitrary JSON-derived cells
(`none` = NaN). -/
structure JsonFrame where
  columns : List String
  rows : List (List (Option Json))

/-- `df.empty` for extractor frames. -/
def jfEmpty (df : JsonFrame) : Bool := df.rows.isEmpty || df.columns.isEmpty

/-- Column order of `pd.DataFrame(list_of_dicts)`: keys in order of first
appearance. -/
def recordsColumns (records : List (List (String × Json))) : List String :=
  records.foldl (fun acc rec =>
    rec.foldl (fun acc2 kv =>
      if acc2.contains kv.1 then acc2 else acc2 ++ [kv.1]) acc) []

/-- `pd.DataFrame(list_of_dicts)`: missing keys become NaN. -/
def dfFromRecords (records : List (List (String × Json))) : JsonFrame :=
  let cols := recordsColumns records
  { columns := cols,
    rows := records.map (fun rec =>
      cols.map (fun c => (rec.find? (fun kv => kv.1 == c)).map (fun kv => kv.2))) }

/-- Flatten one value as `_extract_data` does: nested dicts/lists become
their `json.dumps` string, scalars stay. -/
def flattenVal (json_dumps : Json → String) : Json → Json
  | .obj kvs => .str (json_dumps (.obj kvs))
  | .arr xs => .str (json_dumps (.arr xs))
  | v => v

/-- `len(set(lengths)) == 1`. -/
def allSame : List Nat → Bool
  | [] => false
  | x :: tl => tl.all (fun y => y == x)

/-- `JsonExtractor._extract_data`: array-of-objects → rows;
array-of-arrays → positional columns; other arrays → one `value` column;
dict of equal-length arrays → parallel columns (nested values flattened);
dict containing a list-of-dicts → that list (flattened); flat dict →
single row; scalars → empty frame. -/
def _extract_data (json_dumps : Json → String) (data : Json) : JsonFrame :=
  match data with
  | .arr xs =>
      match xs with
      | (.obj _) :: _ =>
          dfFromRecords (xs.map (fun x =>
            match x with | .obj kvs => kvs | _ => []))
      | (.arr _) :: _ =>
          let rowLists := xs.map (fun x =>
            match x with | .arr ys => ys | _ => [])
          let ncols := rowLists.foldl (fun m r => max m r.length) 0
          { columns := (List.range ncols).map (fun i => toString i),
            rows := rowLists.map (fun r => (List.range ncols).map (fun i => r.get? i)) }
      | _ => { columns := ["value"], rows := xs.map (fun x => [some x]) }
  | .obj kvs =>
      let array_keys := kvs.filter (fun kv =>
        match kv.2 with | .arr _ => true | _ => false)
      let lengths := array_keys.map (fun kv =>
        match kv.2 with | .arr ys => ys.length | _ => 0)
      if !array_keys.isEmpty && allSame lengths then
        let n := match lengths with | [] => 0 | l :: _ => l
        { columns := array_keys.map (fun kv => kv.1),
          rows := (List.range n).map (fun i =>
            array_keys.map (fun kv =>
              match kv.2 with
              | .arr ys => (ys.get? i).map (flattenVal json_dumps)
              | _ => none)) }
      else
        match kvs.find? (fun kv =>
          match kv.2 with
          | .arr ((.obj _) :: _) => true
          | _ => false) with
        | some kv =>
            match kv.2 with
            | .arr items =>
                dfFromRecords (items.map (fun it =>
                  match it with
                  | .obj fkvs => fkvs.map (fun f => (f.1, flattenVal json_dumps f.2))
                  | _ => []))
            | _ => ⟨[], []⟩
        | none =>
            { columns := kvs.map (fun kv => kv.1),
              rows := [kvs.map (fun kv => some (flattenVal json_dumps kv.2))] }
  | _ => ⟨[], []⟩

/-- `Json.str`? test. -/
def isStrVal : Json → Bool
  | .str _ => true
  | _ => false

/-- Column `c` of an extractor frame (`df[c]`), NaN when absent. -/
def getColByName (df : JsonFrame) (c : String) : List (Option Json) :=
  match df.columns.findIdx? (fun x => x == c) with
  | some i => df.rows.map (fun r => r.getD i none)
  | none => df.rows.map (fun _ => none)

/-- `extract_nested` inside `_apply_mappings`: walk remaining path parts
through nested dicts, `None` when any part fails. -/
def extract_nested : Json → List PyStr → Option Json
  | v, [] => some v
  | .obj kvs, p :: ps =>
      match kvs.find? (fun kv => kv.1.data == p) with
      | some kv => extract_nested kv.2 ps
      | none => none
  | _, _ :: _ => none

/-- `JsonExtractor._apply_mappings`: build mapped columns (dot-paths walk
into dict cells), then append unmapped columns that are not mapping
targets. -/
def _apply_mappings (df : JsonFrame) (mappings : List (String × String)) : JsonFrame :=
  let mapped := mappings.foldl (fun acc om =>
    let output_col := om.1
    let input_path := om.2
    if charsContains input_path.data ['.'] then
      match splitChars input_path.data ['.'] with
      | [] => acc
      | p0 :: rest =>
          let col_name := String.mk p0
          if df.columns.contains col_name then
            acc ++ [(output_col, (getColByName df col_name).map (fun cell =>
              match cell with
              | some v => extract_nested v rest
              | none => none))]
          else acc
    else
      if df.columns.contains input_path then
        acc ++ [(output_col, getColByName df input_path)]
      else acc) []
  let allCols := df.columns.foldl (fun acc col =>
    if acc.any (fun kv => kv.1 == col) then acc
    else if mappings.any (fun m => m.2 == col) then acc
    else acc ++ [(col, getColByName df col)]) mapped
  { columns := allCols.map (fun kv => kv.1),
    rows := match allCols with
      | [] => []
      | _ => (List.range df.rows.length).map (fun i =>
          allCols.map (fun kv => kv.2.getD i none)) }

/-- The date-suggesting column-name fragments. -/
def DATE_NAME_PATTERNS : List String :=
  ["date", "time", "timestamp", "created", "updated"]

/-- Does the column name suggest dates? -/
def colNameIsDate (c : String) : Bool :=
  DATE_NAME_PATTERNS.any (fun p => charsContains (lowerChars c.data) p.data)

/-- A pandas `Timestamp`, as a tagged wrapper recording the parse unit
and the raw value. -/
def tsVal (unit : String) (v : Json) : Json :=
  .obj [("__timestamp__", .str unit), ("value", v)]

/-- Regex `^\d{2}/\d{2}/\d{4}` anchored at the start. -/
def matchesMDYAt : PyStr → Bool
  | a :: b :: '/' :: c :: d :: '/' :: e :: f :: g :: h :: _ =>
      isDigitChar a && isDigitChar b && isDigitChar c && isDigitChar d &&
      isDigitChar e && isDigitChar f && isDigitChar g && isDigitChar h
  | _ => false

/-- Regex `^\d{10,13}$`: the whole string is 10–13 digits. -/
def matchesEpochFull (s : PyStr) : Bool :=
  s.all isDigitChar && decide (10 ≤ s.length) && decide (s.length ≤ 13)

/-- `JsonExtractor._looks_like_dates` on the first sample value. -/
def looksLikeDatesSample (v : Json) : Bool :=
  match v with
  | .str s => matchesDateAt s.data || matchesMDYAt s.data || matchesEpochFull s.data
  | _ => false

/-- Generic `pd.to_datetime(..., errors="coerce")` on one value:
date-shaped strings parse, numbers parse as epochs, everything else is
NaT. -/
def toDatetimeCoerce : Json → Option Json
  | .str s => if matchesDateAt s.data then some (tsVal "parse" (.str s)) else none
  | .num q => some (tsVal "ns" (.num q))
  | _ => none

/-- `JsonExtractor._parse_dates` on one column: a numeric first sample
above 1e9 selects second/millisecond epoch parsing (raising — `none` —
when the column mixes in non-numbers); otherwise generic coercing
parsing. -/
def _parse_dates (col : List (Option Json)) : Option (List (Option Json)) :=
  match (col.filterMap id).head? with
  | some (.num q) =>
      if q > 1000000000 then
        let unit := if q > 1000000000000 then "ms" else "s"
        if col.all (fun c =>
            match c with
            | some (.num _) => true
            | some _ => false
            | none => true) then
          some (col.map (fun c => c.map (tsVal unit)))
        else none
      else some (col.map (fun c => c.bind toDatetimeCoerce))
  | _ => some (col.map (fun c => c.bind toDatetimeCoerce))

/-- `JsonExtractor._convert_dates`: convert columns whose name suggests
dates, and object-dtype columns whose sampled first value looks
date-like; parse failures leave the column unchanged. -/
def _convert_dates (df : JsonFrame) : JsonFrame :=
  let newCols : List (List (Option Json)) :=
    (List.range df.columns.length).map (fun i =>
      let col := df.rows.map (fun r => r.getD i none)
      let name := df.columns.getD i ""
      if colNameIsDate name then
        match _parse_dates col with
        | some c2 => c2
        | none => col
      else
        match ((col.filterMap id).take 5).head? with
        | some v =>
            if isStrVal v && looksLikeDatesSample v then
              match _parse_dates col with
              | some c2 => c2
              | none => col
            else col
        | none => col)
  { columns := df.columns,
    rows := (List.range df.rows.length).map (fun rI =>
      newCols.map (fun c => c.getD rI none)) }

/-- `JsonExtractor.extract` on parsed JSON: navigate the optional
dot-path (lookup errors propagate), build the frame, apply non-empty
field mappings to non-empty frames, convert dates. -/
def extract (json_dumps : Json → String) (data : Json)
    (data_path : Option String)
    (field_mappings : Option (List (String × String))) : Except String JsonFrame :=
  let nav : Except String Json :=
    match data_path with
    | some p => if p = "" then .ok data else _navigate_path data p
    | none => .ok data
  match nav with
  | .error e => .error e
  | .ok d =>
      let df := _extract_data json_dumps d
      let df2 :=
        match field_mappings with
        | some ms => if !ms.isEmpty && !(jfEmpty df) then _apply_mappings df ms else df
        | none => df
      .ok (_convert_dates df2)

/-- Claim C9: with a non-empty dot-path, a failing segment lookup makes
`extract` fail with that lookup error (never an empty table), and a
successful navigation makes `extract` return exactly the converted frame
built from the value at the path. -/
theorem json_path_navigation (json_dumps : Json → String) (data : Json)
    (p : String) (fm : Option (List (String × String))) (hp : p ≠ "") :
    (∀ e, _navigate_path data p = .error e →
      extract json_dumps data (some p) fm = .error e) ∧
    (∀ v, _navigate_path data p = .ok v →
      extract json_dumps data (some p) fm =
        .ok (_convert_dates
          (match fm with
           | some ms =>
               if !ms.isEmpty && !(jfEmpty (_extract_data json_dumps v)) then
                 _apply_mappings (_extract_data json_dumps v) ms
               else _extract_data json_dumps v
           | none => _extract_data json_dumps v))) := by
  constructor
  · intro e he
    unfold extract
    dsimp only
    rw [if_neg hp, he]
  · intro v hv
    unfold extract
    dsimp only
    rw [if_neg hp, hv]

/-- The worked example of the spec. -/
def exampleJson : Json :=
  .obj [("data", .obj [("series",
    .arr [.obj [("date", .str "2024-01-01"), ("value", .num 100)]])])]

/-- Witness for C9: on the spec's example object, path `data.series`
extracts exactly one row, and path `data.missing` raises the key
error. -/
theorem json_path_navigation_witness :
    ("data.series" : String) ≠ "" ∧
    ((extract (fun _ => "") exampleJson (some "data.series") none).toOption.map
      (fun df => df.rows.length)) = some 1 ∧
    extract (fun _ => "") exampleJson (some "data.missing") none =
      .error "Key 'missing' not found in data" := by
  refine ⟨by decide, by rfl, ?_⟩
  exact (json_path_navigation (fun _ => "") exampleJson "data.missing" none
      (by decide)).1 "Key 'missing' not found in data" (by rfl)

end DataFetch
